import Mathlib

/-!
Verification of the `fstree` filesystem-context crate (`src/fstree/src/lib.rs`).

The crate's `FsStruct` tracks a task's current/root directory and delegates
path operations to an opaque VFS node interface.  We embed the node interface
as a record of pure functions (`VfsWorld`) supplied as a parameter, translate
each `FsStruct` method from the Rust source, and record every call the layer
makes to the node interface in an explicit event trace so that claims such as
"never invokes remove" are statable.  A Rust `panic!`/failed `unwrap` is
modelled by the `none` value of an outer `Option`; fallible results are
`Except AxError`.  Methods taking `&self` in Rust cannot mutate the context,
so their translations return only a result; the uniform operation wrapper
`applyOp` returns the (unchanged) state for them.
-/

set_option autoImplicit false

deriving instance DecidableEq for Except

/-- Error kinds of `axerrno::AxError` used by this layer (plus `Io` standing
for any other node-interface error that is propagated unchanged). -/
inductive AxError where
  | NotFound
  | NotADirectory
  | IsADirectory
  | AlreadyExists
  | InvalidInput
  | DirectoryNotEmpty
  | PermissionDenied
  | Io
  deriving DecidableEq, Repr

/-- The attribute bits of a VFS node that this layer queries:
`get_attr()?.is_dir()`, `perm().owner_writable()`, `perm().owner_executable()`. -/
structure VfsAttr where
  is_dir : Bool
  owner_writable : Bool
  owner_executable : Bool
  deriving DecidableEq, Repr

/-- Node types of `axfs_vfs::VfsNodeType`; only `Dir` is used explicitly by
this layer (in `create_dir`). -/
inductive VfsNodeType where
  | File
  | Dir
  | SymLink
  | CharDevice
  | BlockDevice
  | Fifo
  | Socket
  deriving DecidableEq, Repr

/-- One call made by the `FsStruct` layer to the node interface.  Traces of
these events record exactly what was delegated and in which order. -/
inductive VfsEvent (Node : Type) where
  | lookupE (n : Node) (path : String) (flags : Int)
  | getAttrE (n : Node)
  | createE (n : Node) (path : String) (ty : VfsNodeType) (uid gid : Nat) (mode : Int)
  | removeE (n : Node) (path : String)
  | renameE (n : Node) (old new : String)
  | linkE (n : Node) (path : String) (target : Node)
  | symlinkE (n : Node) (path target : String) (uid gid : Nat) (mode : Int)
  | containsE (n : Node) (path : String)
  deriving DecidableEq, Repr

/-- The external collaborators of the layer, as pure functions: the node
interface (`VfsNodeOps`), the root directory's `contains` predicate, and the
path canonicalizer `axfs_vfs::path::canonicalize`. -/
structure VfsWorld (Node : Type) where
  lookupN : Node → String → Int → Except AxError (Node × String)
  getAttr : Node → Except AxError VfsAttr
  createN : Node → String → VfsNodeType → Nat → Nat → Int → Except AxError Unit
  removeN : Node → String → Except AxError Unit
  renameN : Node → String → String → Except AxError Unit
  linkN : Node → String → Node → Except AxError Unit
  symlinkN : Node → String → String → Nat → Nat → Int → Except AxError Unit
  contains : Node → String → Bool
  canonicalize : String → String

/-- The `axtype::O_NOFOLLOW` flag (an externally defined bit constant that is
passed through opaquely; numeric value as on Linux). -/
def O_NOFOLLOW : Int := 131072

/-- Whether the second list is an initial segment of the first (helper for
the string primitives below). -/
def listStarts : List Char → List Char → Bool
  | _, [] => true
  | [], _ :: _ => false
  | c :: cs, p :: ps => c == p && listStarts cs ps

/-- Rust `str::starts_with`. -/
def strStartsWith (s pat : String) : Bool :=
  listStarts s.toList pat.toList

/-- Rust `str::ends_with`. -/
def strEndsWith (s pat : String) : Bool :=
  listStarts s.toList.reverse pat.toList.reverse

/-- Rust `str::is_empty`. -/
def strIsEmpty (s : String) : Bool :=
  s.toList.isEmpty

/-- Rust `str::split('/')` at the character-list level: splits at every `/`,
keeping empty pieces between consecutive separators. -/
def splitSlash : List Char → List (List Char)
  | [] => [[]]
  | c :: cs =>
    if c == '/' then
      [] :: splitSlash cs
    else
      match splitSlash cs with
      | [] => [[c]]
      | g :: gs => (c :: g) :: gs

/-- The filesystem context `FsStruct` of the source, with node references of
an abstract type `Node`. -/
structure FsStruct (Node : Type) where
  users : Int
  in_exec : Bool
  curr_path : String
  curr_dir : Option Node
  root_dir : Option Node
  umask : Nat
  deriving DecidableEq, Repr

/-- Translation of `FsStruct::new`. -/
def FsStruct.new {Node : Type} : FsStruct Node :=
  { users := 1
    in_exec := false
    curr_path := "/"
    curr_dir := none
    root_dir := none
    umask := 0 }

/-- Translation of `FsStruct::init`: sets the root, makes the current
directory the root, and resets the current path to `"/"`. -/
def init {Node : Type} (fs : FsStruct Node) (root : Node) : FsStruct Node :=
  { fs with root_dir := some root, curr_dir := some root, curr_path := "/" }

/-- Translation of `FsStruct::set_umask`. -/
def set_umask {Node : Type} (fs : FsStruct Node) (mode : Nat) : FsStruct Node :=
  { fs with umask := mode }

/-- Translation of `FsStruct::copy_fs_struct`: copies `root_dir`, `curr_dir`
and `curr_path` from the source context; `users`, `in_exec` and `umask` are
not copied. -/
def copy_fs_struct {Node : Type} (fs src : FsStruct Node) : FsStruct Node :=
  { fs with root_dir := src.root_dir, curr_dir := src.curr_dir, curr_path := src.curr_path }

/-- Translation of `FsStruct::parent_node_of`: root for absolute paths
(`none` models the `assert!`/`unwrap` panic when the root is unset), else the
supplied base directory, else the current directory (`unwrap` again). -/
def parent_node_of {Node : Type} (fs : FsStruct Node) (dir : Option Node) (path : String) :
    Option Node :=
  if strStartsWith path "/" then
    fs.root_dir
  else
    match dir with
    | some d => some d
    | none => fs.curr_dir

/-- Translation of `FsStruct::lookup`: empty paths fail with `NotFound`; the
parent's `lookup` is delegated to the node interface; a path ending in `/`
must resolve to a directory, else `NotADirectory`. -/
def lookup {Node : Type} (w : VfsWorld Node) (fs : FsStruct Node) (dir : Option Node)
    (path : String) (flags : Int) : Option (Except AxError Node × List (VfsEvent Node)) :=
  if strIsEmpty path then
    some (.error .NotFound, [])
  else
    match parent_node_of fs dir path with
    | none => none
    | some parent =>
      match w.lookupN parent path flags with
      | .error e => some (.error e, [.lookupE parent path flags])
      | .ok (node, _rest) =>
        if strEndsWith path "/" then
          match w.getAttr node with
          | .error e => some (.error e, [.lookupE parent path flags, .getAttrE node])
          | .ok attr =>
            if !attr.is_dir then
              some (.error .NotADirectory, [.lookupE parent path flags, .getAttrE node])
            else
              some (.ok node, [.lookupE parent path flags, .getAttrE node])
        else
          some (.ok node, [.lookupE parent path flags])

/-- Translation of `FsStruct::create_link`. -/
def create_link {Node : Type} (w : VfsWorld Node) (fs : FsStruct Node) (dir : Option Node)
    (path : String) (node : Node) : Option (Except AxError Unit × List (VfsEvent Node)) :=
  if strIsEmpty path then
    some (.error .NotFound, [])
  else if strEndsWith path "/" then
    some (.error .NotADirectory, [])
  else
    match parent_node_of fs dir path with
    | none => none
    | some parent => some (w.linkN parent path node, [.linkE parent path node])

/-- Translation of `FsStruct::create_symlink`. -/
def create_symlink {Node : Type} (w : VfsWorld Node) (fs : FsStruct Node) (dir : Option Node)
    (path target : String) (uid gid : Nat) (mode : Int) :
    Option (Except AxError Unit × List (VfsEvent Node)) :=
  if strIsEmpty path then
    some (.error .NotFound, [])
  else if strEndsWith path "/" then
    some (.error .NotADirectory, [])
  else
    match parent_node_of fs dir path with
    | none => none
    | some parent =>
      some (w.symlinkN parent path target uid gid mode,
            [.symlinkE parent path target uid gid mode])

/-- Translation of `FsStruct::create_file`: validate, delegate `create`, then
look the entry up again and return the resulting node. -/
def create_file {Node : Type} (w : VfsWorld Node) (fs : FsStruct Node) (dir : Option Node)
    (path : String) (ty : VfsNodeType) (uid gid : Nat) (mode : Int) :
    Option (Except AxError Node × List (VfsEvent Node)) :=
  if strIsEmpty path then
    some (.error .NotFound, [])
  else if strEndsWith path "/" then
    some (.error .NotADirectory, [])
  else
    match parent_node_of fs dir path with
    | none => none
    | some parent =>
      match w.createN parent path ty uid gid mode with
      | .error e => some (.error e, [.createE parent path ty uid gid mode])
      | .ok _ =>
        match w.lookupN parent path 0 with
        | .error e =>
          some (.error e, [.createE parent path ty uid gid mode, .lookupE parent path 0])
        | .ok (node, _rest) =>
          some (.ok node, [.createE parent path ty uid gid mode, .lookupE parent path 0])

/-- Rust `str::trim_matches('/')`: removes leading and trailing `/`. -/
def trimSlashes (s : String) : String :=
  String.mk (((s.toList.dropWhile (fun c => c == '/')).reverse.dropWhile
      (fun c => c == '/')).reverse)

/-- The component split performed by `create_dir`:
`path.trim_matches('/').split('/').filter(|s| !s.is_empty())`. -/
def dirComponents (path : String) : List String :=
  ((splitSlash (trimSlashes path).toList).map String.mk).filter (fun s => !(strIsEmpty s))

/-- The parent path computed by `create_dir`:
`components[..len-1].join("/")` when there is more than one component,
empty otherwise. -/
def parentPathOf (components : List String) : String :=
  if components.length > 1 then
    String.intercalate "/" components.dropLast
  else
    ""

/-- Final step of `create_dir` after parent validation: re-resolve the path;
`AlreadyExists` if it now resolves, create on `NotFound`, propagate other
errors.  `tacc` is the trace accumulated so far. -/
def create_dir_final {Node : Type} (w : VfsWorld Node) (fs : FsStruct Node) (dir : Option Node)
    (path : String) (uid gid : Nat) (mode : Int) (tacc : List (VfsEvent Node)) :
    Option (Except AxError Unit × List (VfsEvent Node)) :=
  match lookup w fs dir path 0 with
  | none => none
  | some (.ok _, t3) => some (.error .AlreadyExists, tacc ++ t3)
  | some (.error .NotFound, t3) =>
    match parent_node_of fs dir path with
    | none => none
    | some p =>
      some (w.createN p path .Dir uid gid mode,
            tacc ++ t3 ++ [.createE p path .Dir uid gid mode])
  | some (.error e, t3) => some (.error e, tacc ++ t3)

/-- Translation of `FsStruct::create_dir`: empty path is `InvalidInput`; an
already-resolving path is `AlreadyExists`; an empty component list is
`InvalidInput`; a non-empty parent chain must resolve to a directory
(`NotFound` if its lookup fails, `NotADirectory` if it is not a directory);
then the final re-resolve-and-create step runs. -/
def create_dir {Node : Type} (w : VfsWorld Node) (fs : FsStruct Node) (dir : Option Node)
    (path : String) (uid gid : Nat) (mode : Int) :
    Option (Except AxError Unit × List (VfsEvent Node)) :=
  if strIsEmpty path then
    some (.error .InvalidInput, [])
  else
    match lookup w fs dir path 0 with
    | none => none
    | some (.ok _, t1) => some (.error .AlreadyExists, t1)
    | some (.error _, t1) =>
      let components := dirComponents path
      if components.isEmpty then
        some (.error .InvalidInput, t1)
      else
        let parent_path := parentPathOf components
        if strIsEmpty parent_path then
          create_dir_final w fs dir path uid gid mode t1
        else
          match lookup w fs dir parent_path 0 with
          | none => none
          | some (.ok node, t2) =>
            match w.getAttr node with
            | .error e => some (.error e, t1 ++ t2 ++ [.getAttrE node])
            | .ok attr =>
              if !attr.is_dir then
                some (.error .NotADirectory, t1 ++ t2 ++ [.getAttrE node])
              else
                create_dir_final w fs dir path uid gid mode (t1 ++ t2 ++ [.getAttrE node])
          | some (.error _, t2) => some (.error .NotFound, t1 ++ t2)

/-- Translation of `FsStruct::current_dir` (returns the current path). -/
def current_dir {Node : Type} (fs : FsStruct Node) : Except AxError String :=
  .ok fs.curr_path

/-- Translation of `FsStruct::absolute_path`: canonicalize the path directly
if absolute, else canonicalize `curr_path + path`. -/
def absolute_path {Node : Type} (w : VfsWorld Node) (fs : FsStruct Node) (path : String) :
    Except AxError String :=
  if strStartsWith path "/" then
    .ok (w.canonicalize path)
  else
    .ok (w.canonicalize (fs.curr_path ++ path))

/-- The string value `absolute_path` wraps in `Ok`. -/
def absPathVal {Node : Type} (w : VfsWorld Node) (fs : FsStruct Node) (path : String) : String :=
  if strStartsWith path "/" then w.canonicalize path else w.canonicalize (fs.curr_path ++ path)

/-- The trailing-slash normalization of `set_current_dir`:
`if !abs_path.ends_with('/') { abs_path += "/" }`. -/
def ensureSlash (s : String) : String :=
  if strEndsWith s "/" then s else s ++ "/"

/-- Translation of `FsStruct::set_current_dir`: compute the absolute path,
ensure a trailing `/`; `"/"` resets to the root directly; otherwise look the
path up, require a directory (`NotADirectory`) with the owner-executable bit
(`PermissionDenied`), then update `curr_dir` and `curr_path` together.
Returns the post-state alongside the result. -/
def set_current_dir {Node : Type} (w : VfsWorld Node) (fs : FsStruct Node) (path : String) :
    Option (FsStruct Node × Except AxError Unit × List (VfsEvent Node)) :=
  match absolute_path w fs path with
  | .error e => some (fs, .error e, [])
  | .ok ap =>
    let abs_path := ensureSlash ap
    if abs_path == "/" then
      match fs.root_dir with
      | none => none
      | some root => some ({ fs with curr_dir := some root, curr_path := "/" }, .ok (), [])
    else
      match lookup w fs none abs_path 0 with
      | none => none
      | some (.error e, t) => some (fs, .error e, t)
      | some (.ok node, t) =>
        match w.getAttr node with
        | .error e => some (fs, .error e, t ++ [.getAttrE node])
        | .ok attr =>
          if !attr.is_dir then
            some (fs, .error .NotADirectory, t ++ [.getAttrE node])
          else if !attr.owner_executable then
            some (fs, .error .PermissionDenied, t ++ [.getAttrE node])
          else
            some ({ fs with curr_dir := some node, curr_path := abs_path }, .ok (),
                  t ++ [.getAttrE node])

/-- Translation of `FsStruct::remove_file`: look the path up with
`O_NOFOLLOW`; a directory target fails with `IsADirectory`; otherwise
removal is delegated to the parent node. -/
def remove_file {Node : Type} (w : VfsWorld Node) (fs : FsStruct Node) (dir : Option Node)
    (path : String) : Option (Except AxError Unit × List (VfsEvent Node)) :=
  match lookup w fs dir path O_NOFOLLOW with
  | none => none
  | some (.error e, t) => some (.error e, t)
  | some (.ok node, t) =>
    match w.getAttr node with
    | .error e => some (.error e, t ++ [.getAttrE node])
    | .ok attr =>
      if attr.is_dir then
        some (.error .IsADirectory, t ++ [.getAttrE node])
      else
        match parent_node_of fs dir path with
        | none => none
        | some p => some (w.removeN p path, t ++ [.getAttrE node, .removeE p path])

/-- Translation of `FsStruct::remove_dir`: empty path `NotFound`; a path of
only separators `DirectoryNotEmpty`; `.`/`..` forms `InvalidInput`; a path
the root directory `contains` is `PermissionDenied`; then the target must be
a directory (`NotADirectory`) with the owner-writable bit
(`PermissionDenied`) before removal is delegated to the parent node. -/
def remove_dir {Node : Type} (w : VfsWorld Node) (fs : FsStruct Node) (dir : Option Node)
    (path : String) : Option (Except AxError Unit × List (VfsEvent Node)) :=
  if strIsEmpty path then
    some (.error .NotFound, [])
  else
    let path_check := trimSlashes path
    if strIsEmpty path_check then
      some (.error .DirectoryNotEmpty, [])
    else if path_check == "." || path_check == ".." || strEndsWith path_check "/." ||
        strEndsWith path_check "/.." then
      some (.error .InvalidInput, [])
    else
      match fs.root_dir with
      | none => none
      | some root =>
        match absolute_path w fs path with
        | .error e => some (.error e, [])
        | .ok ap =>
          if w.contains root ap then
            some (.error .PermissionDenied, [.containsE root ap])
          else
            match lookup w fs dir path 0 with
            | none => none
            | some (.error e, t) => some (.error e, .containsE root ap :: t)
            | some (.ok node, t) =>
              match w.getAttr node with
              | .error e => some (.error e, .containsE root ap :: (t ++ [.getAttrE node]))
              | .ok attr =>
                if !attr.is_dir then
                  some (.error .NotADirectory, .containsE root ap :: (t ++ [.getAttrE node]))
                else if !attr.owner_writable then
                  some (.error .PermissionDenied, .containsE root ap :: (t ++ [.getAttrE node]))
                else
                  match parent_node_of fs dir path with
                  | none => none
                  | some p =>
                    some (w.removeN p path,
                          .containsE root ap :: (t ++ [.getAttrE node, .removeE p path]))

/-- Translation of `FsStruct::rename`: if the destination resolves (a raw
node-interface lookup), remove it via `remove_file` first; then delegate the
rename to the parent node of `old`. -/
def rename {Node : Type} (w : VfsWorld Node) (fs : FsStruct Node) (old new : String) :
    Option (Except AxError Unit × List (VfsEvent Node)) :=
  match parent_node_of fs none new with
  | none => none
  | some pn =>
    match w.lookupN pn new 0 with
    | .ok _ =>
      match remove_file w fs none new with
      | none => none
      | some (.error e, t) => some (.error e, .lookupE pn new 0 :: t)
      | some (.ok _, t) =>
        match parent_node_of fs none old with
        | none => none
        | some po =>
          some (w.renameN po old new, .lookupE pn new 0 :: (t ++ [.renameE po old new]))
    | .error _ =>
      match parent_node_of fs none old with
      | none => none
      | some po => some (w.renameN po old new, [.lookupE pn new 0, .renameE po old new])

/-- Modelled from the spec: the external Path Canonicalizer collaborator
(spec section 6), which is not part of this crate's sources — it resolves
`.`/`..` components and collapses redundant separators into a normalized
absolute path.  Used only to build concrete instantiations for witnesses;
the theorems keep the canonicalizer abstract. -/
def specCanonicalize (path : String) : String :=
  let comps := ((splitSlash path.toList).map String.mk).filter (fun c => !(c == "") && !(c == "."))
  let resolved :=
    comps.foldl (fun acc c => if c == ".." then acc.dropLast else acc ++ [c]) ([] : List String)
  "/" ++ String.intercalate "/" resolved

/-- A normalized absolute directory path: starts and ends with `/`, and has
no empty, `.` or `..` component (every component of a path that starts and
ends with `/` is delimited by slashes on both sides, so these are exactly
the infix patterns `//`, `/./` and `/../`). -/
def NormAbsDir (s : String) : Prop :=
  strStartsWith s "/" = true ∧ strEndsWith s "/" = true ∧
    ¬ ("//".toList <:+: s.toList) ∧ ¬ ("/./".toList <:+: s.toList) ∧
    ¬ ("/../".toList <:+: s.toList)

instance : DecidablePred NormAbsDir := fun s => by
  unfold NormAbsDir
  infer_instance

/-- One public operation of the context, with its arguments. -/
inductive FsOp (Node : Type) where
  | lookupOp (dir : Option Node) (path : String) (flags : Int)
  | createLinkOp (dir : Option Node) (path : String) (node : Node)
  | createSymlinkOp (dir : Option Node) (path target : String) (uid gid : Nat) (mode : Int)
  | createFileOp (dir : Option Node) (path : String) (ty : VfsNodeType) (uid gid : Nat)
      (mode : Int)
  | createDirOp (dir : Option Node) (path : String) (uid gid : Nat) (mode : Int)
  | removeFileOp (dir : Option Node) (path : String)
  | removeDirOp (dir : Option Node) (path : String)
  | renameOp (old new : String)
  | absolutePathOp (path : String)
  | currentDirOp
  | rootDirOp
  | setCurrentDirOp (path : String)
  | setUmaskOp (mode : Nat)
  | initOp (root : Node)
  | copyFsOp (src : FsStruct Node)
  | newOp

/-- The (heterogeneous) result of one public operation. -/
inductive FsOpResult (Node : Type) where
  | nodeRes (r : Except AxError Node)
  | unitRes (r : Except AxError Unit)
  | strRes (r : Except AxError String)
  | rootRes (r : Option Node)
  | unitPlain

/-- Uniform state-passing wrapper over all public operations: returns the
post-state together with `none` on panic or the result and the trace of
node-interface calls.  Methods taking `&self` in Rust leave the state
unchanged by their signature, so the wrapper returns the input state for
them. -/
def applyOp {Node : Type} (w : VfsWorld Node) (fs : FsStruct Node) :
    FsOp Node → FsStruct Node × Option (FsOpResult Node × List (VfsEvent Node))
  | .lookupOp dir path flags =>
    (fs, (lookup w fs dir path flags).map (fun p => (.nodeRes p.1, p.2)))
  | .createLinkOp dir path node =>
    (fs, (create_link w fs dir path node).map (fun p => (.unitRes p.1, p.2)))
  | .createSymlinkOp dir path target uid gid mode =>
    (fs, (create_symlink w fs dir path target uid gid mode).map (fun p => (.unitRes p.1, p.2)))
  | .createFileOp dir path ty uid gid mode =>
    (fs, (create_file w fs dir path ty uid gid mode).map (fun p => (.nodeRes p.1, p.2)))
  | .createDirOp dir path uid gid mode =>
    (fs, (create_dir w fs dir path uid gid mode).map (fun p => (.unitRes p.1, p.2)))
  | .removeFileOp dir path =>
    (fs, (remove_file w fs dir path).map (fun p => (.unitRes p.1, p.2)))
  | .removeDirOp dir path =>
    (fs, (remove_dir w fs dir path).map (fun p => (.unitRes p.1, p.2)))
  | .renameOp old new =>
    (fs, (rename w fs old new).map (fun p => (.unitRes p.1, p.2)))
  | .absolutePathOp path => (fs, some (.strRes (absolute_path w fs path), []))
  | .currentDirOp => (fs, some (.strRes (current_dir fs), []))
  | .rootDirOp => (fs, some (.rootRes fs.root_dir, []))
  | .setCurrentDirOp path =>
    match set_current_dir w fs path with
    | none => (fs, none)
    | some (fs2, r, t) => (fs2, some (.unitRes r, t))
  | .setUmaskOp mode => (set_umask fs mode, some (.unitPlain, []))
  | .initOp root => (init fs root, some (.unitPlain, []))
  | .copyFsOp src => (copy_fs_struct fs src, some (.unitPlain, []))
  | .newOp => (FsStruct.new, some (.unitPlain, []))

/-- The operations whose Rust receivers are `&self` (immutable borrows):
everything except `set_current_dir`, `set_umask`, `init`, `copy_fs_struct`
and `new`. -/
def FsOp.readsOnly {Node : Type} : FsOp Node → Bool
  | .setCurrentDirOp _ => false
  | .setUmaskOp _ => false
  | .initOp _ => false
  | .copyFsOp _ => false
  | .newOp => false
  | _ => true

/-- Whether an operation is `set_umask`. -/
def FsOp.isSetUmask {Node : Type} : FsOp Node → Bool
  | .setUmaskOp _ => true
  | _ => false

/-- Attribute of a plain regular file (used by concrete witness worlds). -/
def attrFile : VfsAttr := { is_dir := false, owner_writable := true, owner_executable := true }

/-- Attribute of a writable, executable directory (witness worlds). -/
def attrDir : VfsAttr := { is_dir := true, owner_writable := true, owner_executable := true }

/-- Attribute of a directory lacking the owner-executable bit. -/
def attrDirNoExec : VfsAttr :=
  { is_dir := true, owner_writable := true, owner_executable := false }

/-- Concrete world over `Node := Nat` in which every lookup fails with
`NotFound` and every mutation succeeds; node `0` is the root directory. -/
def wNF : VfsWorld Nat :=
  { lookupN := fun _ _ _ => .error .NotFound
    getAttr := fun n => .ok (if n == 0 then attrDir else attrFile)
    createN := fun _ _ _ _ _ _ => .ok ()
    removeN := fun _ _ => .ok ()
    renameN := fun _ _ _ => .ok ()
    linkN := fun _ _ _ => .ok ()
    symlinkN := fun _ _ _ _ _ _ => .ok ()
    contains := fun _ _ => false
    canonicalize := specCanonicalize }

/-- Concrete world in which the path `"f"` resolves to the regular file
node `1`; everything else is as in `wNF`. -/
def wFile : VfsWorld Nat :=
  { wNF with lookupN := fun _ p _ => if p == "f" then .ok (1, "") else .error .NotFound }

/-- Concrete world in which the paths `"d"` and `"/d/"` resolve to the
directory node `2`; node `2` is a writable, executable directory. -/
def wDir : VfsWorld Nat :=
  { wNF with
    lookupN := fun _ p _ => if p == "d" || p == "/d/" then .ok (2, "") else .error .NotFound
    getAttr := fun n => .ok (if n == 1 then attrFile else attrDir) }

/-- Concrete world in which `"/d/"` resolves to node `2`, a directory
lacking the owner-executable bit. -/
def wDirNoExec : VfsWorld Nat :=
  { wNF with
    lookupN := fun _ p _ => if p == "/d/" then .ok (2, "") else .error .NotFound
    getAttr := fun n => .ok (if n == 2 then attrDirNoExec else attrDir) }

/-- A concrete initialized context over `Node := Nat` with root node `0`. -/
def fs0 : FsStruct Nat := init FsStruct.new 0

/-- Helper: `absolute_path` always returns `Ok` of `absPathVal`. -/
theorem absolute_path_eq {Node : Type} (w : VfsWorld Node) (fs : FsStruct Node) (path : String) :
    absolute_path w fs path = .ok (absPathVal w fs path) := by
  unfold absolute_path absPathVal
  by_cases h : strStartsWith path "/" <;> simp [h]

/-- Helper: a string is `strIsEmpty` exactly when it is `""`. -/
theorem strIsEmpty_iff (s : String) : strIsEmpty s = true ↔ s = "" := by
  unfold strIsEmpty
  rw [List.isEmpty_iff]
  constructor
  · intro h
    cases s with
    | mk data =>
      simp only [String.toList] at h
      subst h
      rfl
  · intro h
    rw [h]
    rfl

/-- Helper: a nonempty string is not `strIsEmpty`. -/
theorem strIsEmpty_eq_false {s : String} (h : s ≠ "") : strIsEmpty s = false := by
  cases hb : strIsEmpty s
  · rfl
  · exact absurd ((strIsEmpty_iff s).mp hb) h

/-- Helper: trimming a string that consists only of separators yields `""`. -/
theorem trimSlashes_all_slash {path : String}
    (h : path.toList.all (fun c => c == '/') = true) : trimSlashes path = "" := by
  unfold trimSlashes
  have hd : path.toList.dropWhile (fun c => c == '/') = [] := by
    rw [List.dropWhile_eq_nil_iff]
    intro x hx
    exact (List.all_eq_true.mp h) x hx
  rw [hd]
  rfl

/-- Helper: the trace of a `lookup` consists of at most one node-interface
lookup event followed by at most one attribute query. -/
theorem lookup_trace_shape {Node : Type} {w : VfsWorld Node} {fs : FsStruct Node}
    {dir : Option Node} {path : String} {flags : Int} {r : Except AxError Node}
    {t : List (VfsEvent Node)} (h : lookup w fs dir path flags = some (r, t)) :
    t = [] ∨ (∃ p, t = [VfsEvent.lookupE p path flags]) ∨
      ∃ p n, t = [VfsEvent.lookupE p path flags, VfsEvent.getAttrE n] := by
  unfold lookup at h
  split at h
  · simp_all
  · split at h
    · simp_all
    · split at h
      · simp only [Option.some.injEq, Prod.mk.injEq] at h
        obtain ⟨h1, h2⟩ := h
        subst h2
        simp
      · split at h
        · split at h
          · simp only [Option.some.injEq, Prod.mk.injEq] at h
            obtain ⟨h1, h2⟩ := h
            subst h2
            simp
          · split at h <;>
            · simp only [Option.some.injEq, Prod.mk.injEq] at h
              obtain ⟨h1, h2⟩ := h
              subst h2
              simp
        · simp only [Option.some.injEq, Prod.mk.injEq] at h
          obtain ⟨h1, h2⟩ := h
          subst h2
          simp

/-- Helper: every outcome of `set_current_dir` is a panic, an error that
returns the context unchanged, or a success that updates `curr_dir` and
`curr_path` (to the slash-terminated absolute path) together. -/
theorem set_current_dir_shape {Node : Type} (w : VfsWorld Node) (fs : FsStruct Node)
    (path : String) :
    set_current_dir w fs path = none ∨
    (∃ e t, set_current_dir w fs path = some (fs, Except.error e, t)) ∨
    ∃ nd t, set_current_dir w fs path =
      some ({ fs with curr_dir := some nd, curr_path := ensureSlash (absPathVal w fs path) },
            Except.ok (), t) := by
  cases h : set_current_dir w fs path with
  | none => exact Or.inl rfl
  | some res =>
    obtain ⟨fs2, r, t⟩ := res
    simp only [set_current_dir, absolute_path_eq] at h
    split at h
    · rename_i hap
      have hap2 : ensureSlash (absPathVal w fs path) = "/" := by simpa using hap
      split at h
      · exact absurd h (by simp)
      · rename_i root hroot
        simp only [Option.some.injEq, Prod.mk.injEq] at h
        obtain ⟨h1, h2, h3⟩ := h
        subst h1; subst h2; subst h3
        refine Or.inr (Or.inr ⟨root, [], ?_⟩)
        rw [hap2]
    · split at h
      · exact absurd h (by simp)
      · simp only [Option.some.injEq, Prod.mk.injEq] at h
        obtain ⟨h1, h2, h3⟩ := h
        subst h1; subst h2; subst h3
        exact Or.inr (Or.inl ⟨_, _, rfl⟩)
      · split at h
        · simp only [Option.some.injEq, Prod.mk.injEq] at h
          obtain ⟨h1, h2, h3⟩ := h
          subst h1; subst h2; subst h3
          exact Or.inr (Or.inl ⟨_, _, rfl⟩)
        · split at h
          · simp only [Option.some.injEq, Prod.mk.injEq] at h
            obtain ⟨h1, h2, h3⟩ := h
            subst h1; subst h2; subst h3
            exact Or.inr (Or.inl ⟨_, _, rfl⟩)
          · split at h
            · simp only [Option.some.injEq, Prod.mk.injEq] at h
              obtain ⟨h1, h2, h3⟩ := h
              subst h1; subst h2; subst h3
              exact Or.inr (Or.inl ⟨_, _, rfl⟩)
            · rename_i node t' hlk hattr attr hgood hd hexec
              simp only [Option.some.injEq, Prod.mk.injEq] at h
              obtain ⟨h1, h2, h3⟩ := h
              subst h1; subst h2; subst h3
              exact Or.inr (Or.inr ⟨node, _, rfl⟩)

/-- C7: `absolute_path` never fails: for every path it returns `Ok` of the
canonicalized path itself when the path is absolute, and of the canonicalized
concatenation of the current path and the argument otherwise. -/
theorem absolute_path_total_canonical {Node : Type} (w : VfsWorld Node) (fs : FsStruct Node)
    (path : String) :
    absolute_path w fs path =
      Except.ok (if strStartsWith path "/" then w.canonicalize path
                 else w.canonicalize (fs.curr_path ++ path)) := by
  unfold absolute_path
  by_cases h : strStartsWith path "/" <;> simp [h]

/-- C9: every operation whose Rust receiver is an immutable borrow (lookup,
the four creation operations, remove_file, remove_dir, rename,
absolute_path, current_dir, root_dir) leaves every field of the context
unchanged for all inputs, success or failure; only `set_current_dir`,
`set_umask`, `init`, `copy_fs_struct` and `new` are outside this set. -/
theorem readonly_ops_frame {Node : Type} (w : VfsWorld Node) (fs : FsStruct Node)
    (op : FsOp Node) (h : op.readsOnly = true) : (applyOp w fs op).1 = fs := by
  cases op
  all_goals first
    | rfl
    | simp [FsOp.readsOnly] at h

/-- C9 witness: a lookup leaves a concrete context unchanged. -/
theorem readonly_ops_frame_witness :
    (applyOp wNF fs0 (FsOp.lookupOp none "a" 0)).1 = fs0 :=
  readonly_ops_frame wNF fs0 (FsOp.lookupOp none "a" 0) (by decide)

/-- C4: `remove_dir` rejects a nonempty all-separator path (such as `"/"` or
`"///"`) with `DirectoryNotEmpty`, and rejects a path whose separator-trimmed
form is `.` or `..` or ends in `/.` or `/..` with `InvalidInput`; in both
cases the trace is empty, so the validation happens before any
node-interface call. -/
theorem remove_dir_local_validations {Node : Type} :
    (∀ (w : VfsWorld Node) (fs : FsStruct Node) (dir : Option Node) (path : String),
      path ≠ "" → path.toList.all (fun c => c == '/') = true →
      remove_dir w fs dir path = some (.error .DirectoryNotEmpty, [])) ∧
    (∀ (w : VfsWorld Node) (fs : FsStruct Node) (dir : Option Node) (path : String),
      (trimSlashes path == "." || trimSlashes path == ".." ||
        strEndsWith (trimSlashes path) "/." || strEndsWith (trimSlashes path) "/..") = true →
      remove_dir w fs dir path = some (.error .InvalidInput, [])) := by
  constructor
  · intro w fs dir path hne hall
    have h1 : strIsEmpty path = false := strIsEmpty_eq_false hne
    have h2 : strIsEmpty "" = true := by decide
    simp only [remove_dir, h1, trimSlashes_all_slash hall, h2]
    simp
  · intro w fs dir path hdot
    have hne : path ≠ "" := by
      intro hc
      subst hc
      rw [show trimSlashes "" = "" from by decide] at hdot
      exact absurd hdot (by decide)
    have hpc : strIsEmpty (trimSlashes path) = false := by
      cases hb : strIsEmpty (trimSlashes path)
      · rfl
      · rw [(strIsEmpty_iff (trimSlashes path)).mp hb] at hdot
        exact absurd hdot (by decide)
    have h1 : strIsEmpty path = false := strIsEmpty_eq_false hne
    simp only [remove_dir, h1, hpc, hdot]
    simp

/-- C4 witness: concrete instances for `"///"` and `"a/."`. -/
theorem remove_dir_local_validations_witness :
    remove_dir wNF fs0 none "///" = some (.error .DirectoryNotEmpty, []) ∧
    remove_dir wNF fs0 none "a/." = some (.error .InvalidInput, []) :=
  ⟨(@remove_dir_local_validations Nat).1 wNF fs0 none "///" (by decide) (by decide),
   (@remove_dir_local_validations Nat).2 wNF fs0 none "a/." (by decide)⟩

/-- C3 (amended): `create_file`, `create_link` and `create_symlink` fail with
`NotFound` on an empty path and with `NotADirectory` on a path ending in `/`,
with an empty trace (nothing is delegated to the node interface);
`create_dir` instead fails with `InvalidInput` on an empty path (with an
empty trace) and performs no local trailing-slash validation at all. -/
theorem creation_validation_amended :
    (∀ (Node : Type) (w : VfsWorld Node) (fs : FsStruct Node) (dir : Option Node)
        (path target : String) (node : Node) (ty : VfsNodeType) (uid gid : Nat) (mode : Int),
      strIsEmpty path = true →
        create_file w fs dir path ty uid gid mode = some (.error .NotFound, []) ∧
        create_link w fs dir path node = some (.error .NotFound, []) ∧
        create_symlink w fs dir path target uid gid mode = some (.error .NotFound, []) ∧
        create_dir w fs dir path uid gid mode = some (.error .InvalidInput, [])) ∧
    (∀ (Node : Type) (w : VfsWorld Node) (fs : FsStruct Node) (dir : Option Node)
        (path target : String) (node : Node) (ty : VfsNodeType) (uid gid : Nat) (mode : Int),
      strEndsWith path "/" = true →
        create_file w fs dir path ty uid gid mode = some (.error .NotADirectory, []) ∧
        create_link w fs dir path node = some (.error .NotADirectory, []) ∧
        create_symlink w fs dir path target uid gid mode = some (.error .NotADirectory, [])) := by
  constructor
  · intro Node w fs dir path target node ty uid gid mode h
    refine ⟨?_, ?_, ?_, ?_⟩ <;> simp [create_file, create_link, create_symlink, create_dir, h]
  · intro Node w fs dir path target node ty uid gid mode h
    have hne : strIsEmpty path = false := by
      cases hb : strIsEmpty path
      · rfl
      · rw [(strIsEmpty_iff path).mp hb] at h
        exact absurd h (by decide)
    refine ⟨?_, ?_, ?_⟩ <;> simp [create_file, create_link, create_symlink, hne, h]

/-- C3 witness: concrete instances of both amended validations. -/
theorem creation_validation_amended_witness :
    create_file wNF fs0 none "" .File 0 0 0 = some (.error .NotFound, []) ∧
    create_link wNF fs0 none "x/" 1 = some (.error .NotADirectory, []) :=
  ⟨(creation_validation_amended.1 Nat wNF fs0 none "" "" 1 .File 0 0 0 (by decide)).1,
   (creation_validation_amended.2 Nat wNF fs0 none "x/" "" 1 .File 0 0 0 (by decide)).2.1⟩

/-- C3 counterexample: `create_dir` with an empty path fails with
`InvalidInput`, not `NotFound` as the claim states; and with the
trailing-slash path `"a/"` it does not fail with `NotADirectory` but
delegates the creation to the node interface and succeeds. -/
theorem creation_validation_cex :
    create_dir wNF fs0 none "" 0 0 0 = some (.error .InvalidInput, []) ∧
    AxError.InvalidInput ≠ AxError.NotFound ∧
    create_dir wNF fs0 none "a/" 0 0 0 =
      some (.ok (), [.lookupE 0 "a/" 0, .lookupE 0 "a/" 0, .createE 0 "a/" .Dir 0 0 0]) :=
  ⟨by decide, by decide, by decide⟩

/-- C6: when the `O_NOFOLLOW` lookup of `remove_file` resolves to a node
whose attributes say it is a directory, `remove_file` fails with
`IsADirectory` and its trace contains no removal event; when the node is not
a directory, the removal is delegated to the parent node. -/
theorem remove_file_directory_guard {Node : Type} :
    (∀ (w : VfsWorld Node) (fs : FsStruct Node) (dir : Option Node) (path : String)
        (node : Node) (t : List (VfsEvent Node)) (attr : VfsAttr),
      lookup w fs dir path O_NOFOLLOW = some (.ok node, t) →
      w.getAttr node = .ok attr → attr.is_dir = true →
      remove_file w fs dir path = some (.error .IsADirectory, t ++ [.getAttrE node]) ∧
      ∀ m q, VfsEvent.removeE m q ∉ t ++ [VfsEvent.getAttrE node]) ∧
    (∀ (w : VfsWorld Node) (fs : FsStruct Node) (dir : Option Node) (path : String)
        (node p : Node) (t : List (VfsEvent Node)) (attr : VfsAttr),
      lookup w fs dir path O_NOFOLLOW = some (.ok node, t) →
      w.getAttr node = .ok attr → attr.is_dir = false →
      parent_node_of fs dir path = some p →
      remove_file w fs dir path =
        some (w.removeN p path, t ++ [.getAttrE node, .removeE p path])) := by
  constructor
  · intro w fs dir path node t attr hlook hattr hd
    constructor
    · simp [remove_file, hlook, hattr, hd]
    · intro m q
      rcases lookup_trace_shape hlook with rfl | ⟨p, rfl⟩ | ⟨p, n, rfl⟩ <;> simp
  · intro w fs dir path node p t attr hlook hattr hd hpar
    simp [remove_file, hlook, hattr, hd, hpar]

/-- C6 witness: in a concrete world where `"d"` is a directory, removing it
as a file fails with `IsADirectory` and performs no removal. -/
theorem remove_file_directory_guard_witness :
    remove_file wDir fs0 none "d" =
      some (.error .IsADirectory, [.lookupE 0 "d" O_NOFOLLOW, .getAttrE 2]) ∧
    ∀ m q, VfsEvent.removeE m q ∉
      ([VfsEvent.lookupE 0 "d" O_NOFOLLOW, VfsEvent.getAttrE 2] : List (VfsEvent Nat)) :=
  (@remove_file_directory_guard Nat).1 wDir fs0 none "d" 2
    [VfsEvent.lookupE 0 "d" O_NOFOLLOW] attrDir (by decide) (by decide) (by decide)

/-- Helper: appending to a nonempty string yields a nonempty string. -/
theorem strIsEmpty_append {a : String} (b : String) (h : strIsEmpty a = false) :
    strIsEmpty (a ++ b) = false := by
  cases hb : strIsEmpty (a ++ b)
  · rfl
  · have hab : a ++ b = "" := (strIsEmpty_iff (a ++ b)).mp hb
    have hd : a.data ++ b.data = ([] : List Char) := by
      have h2 := congrArg String.data hab
      rw [String.data_append] at h2
      exact h2
    have ha : a.data = [] := (List.append_eq_nil.mp hd).1
    have ha2 : strIsEmpty a = true := by
      unfold strIsEmpty
      rw [List.isEmpty_iff]
      exact ha
    rw [ha2] at h
    exact Bool.noConfusion h

/-- Helper: the accumulator argument of `String.intercalate.go` is a prefix
of its result, so a nonempty accumulator gives a nonempty result. -/
theorem strIsEmpty_intercalate_go (s : String) (l : List String) (acc : String)
    (h : strIsEmpty acc = false) : strIsEmpty (String.intercalate.go acc s l) = false := by
  induction l generalizing acc with
  | nil => exact h
  | cons a as ih => exact ih (acc ++ s ++ a) (strIsEmpty_append a (strIsEmpty_append s h))

/-- Helper: intercalating a list whose head is nonempty gives a nonempty
string. -/
theorem strIsEmpty_intercalate {c : String} (cs : List String)
    (hc : strIsEmpty c = false) : strIsEmpty (String.intercalate "/" (c :: cs)) = false :=
  strIsEmpty_intercalate_go "/" cs c hc

/-- C2: for every multi-component path (more than one component remains
after trimming separators and splitting, exactly as `create_dir` computes
them) that does not itself resolve and whose parent component chain fails to
look up, `create_dir` fails with `NotFound` and its trace contains no
creation event: intermediate directories are never created implicitly (no
mkdir -p semantics). -/
theorem create_dir_missing_parent_notfound {Node : Type} (w : VfsWorld Node)
    (fs : FsStruct Node) (dir : Option Node) (path : String) (uid gid : Nat) (mode : Int)
    (e1 e2 : AxError) (t1 t2 : List (VfsEvent Node))
    (hmulti : 1 < (dirComponents path).length)
    (h1 : lookup w fs dir path 0 = some (.error e1, t1))
    (h2 : lookup w fs dir (parentPathOf (dirComponents path)) 0 = some (.error e2, t2)) :
    create_dir w fs dir path uid gid mode = some (.error .NotFound, t1 ++ t2) ∧
    ∀ m q ty u g md, VfsEvent.createE m q ty u g md ∉ t1 ++ t2 := by
  have hne : path ≠ "" := by
    intro hcon
    subst hcon
    rw [show dirComponents "" = [] from by decide] at hmulti
    exact absurd hmulti (by decide)
  have hcomp : (dirComponents path).isEmpty = false := by
    cases hch : (dirComponents path).isEmpty
    · rfl
    · rw [List.isEmpty_iff] at hch
      rw [hch] at hmulti
      exact absurd hmulti (by decide)
  have hpp : strIsEmpty (parentPathOf (dirComponents path)) = false := by
    obtain ⟨c, cs, hcons⟩ : ∃ c cs, (dirComponents path).dropLast = c :: cs := by
      have hlen : 0 < (dirComponents path).dropLast.length := by
        rw [List.length_dropLast]
        omega
      cases hdl : (dirComponents path).dropLast with
      | nil =>
        rw [hdl] at hlen
        exact absurd hlen (by decide)
      | cons c cs => exact ⟨c, cs, rfl⟩
    have hcmem : c ∈ dirComponents path := by
      apply List.dropLast_subset
      rw [hcons]
      exact List.mem_cons_self c cs
    have hcne : strIsEmpty c = false := by
      unfold dirComponents at hcmem
      have hp := (List.mem_filter.mp hcmem).2
      simpa using hp
    unfold parentPathOf
    rw [if_pos hmulti, hcons]
    exact strIsEmpty_intercalate cs hcne
  have hempty : strIsEmpty path = false := strIsEmpty_eq_false hne
  constructor
  · simp only [create_dir, hempty, h1, hcomp, hpp, h2]
    simp
  · intro m q ty u g md
    rcases lookup_trace_shape h1 with rfl | ⟨p, rfl⟩ | ⟨p, n, rfl⟩ <;>
      rcases lookup_trace_shape h2 with rfl | ⟨p2, rfl⟩ | ⟨p2, n2, rfl⟩ <;> simp

/-- C2 witness: creating `"a/b"` when neither it nor `"a"` resolves fails
with `NotFound` and no creation event is emitted. -/
theorem create_dir_missing_parent_notfound_witness :
    create_dir wNF fs0 none "a/b" 0 0 0 =
      some (.error .NotFound, [VfsEvent.lookupE 0 "a/b" 0] ++ [VfsEvent.lookupE 0 "a" 0]) ∧
    ∀ m q ty u g md, VfsEvent.createE m q ty u g md ∉
      ([VfsEvent.lookupE 0 "a/b" 0] ++ [VfsEvent.lookupE 0 "a" 0] : List (VfsEvent Nat)) :=
  create_dir_missing_parent_notfound wNF fs0 none "a/b" 0 0 0 .NotFound .NotFound
    [VfsEvent.lookupE 0 "a/b" 0] [VfsEvent.lookupE 0 "a" 0]
    (by decide) (by decide) (by decide)

/-- C5: whenever `set_current_dir` returns an error the context is returned
with `curr_dir` and `curr_path` (and every other field) unchanged — in
particular `PermissionDenied` when the path resolves to a directory lacking
the owner-executable bit and `NotADirectory` when it resolves to a
non-directory — and on success the two fields are updated together, every
other field being preserved. -/
theorem set_current_dir_error_preserves_state {Node : Type} :
    (∀ (w : VfsWorld Node) (fs : FsStruct Node) (path : String) (fs2 : FsStruct Node)
        (e : AxError) (t : List (VfsEvent Node)),
      set_current_dir w fs path = some (fs2, .error e, t) → fs2 = fs) ∧
    (∀ (w : VfsWorld Node) (fs : FsStruct Node) (path : String) (fs2 : FsStruct Node)
        (t : List (VfsEvent Node)),
      set_current_dir w fs path = some (fs2, .ok (), t) →
      fs2.users = fs.users ∧ fs2.in_exec = fs.in_exec ∧ fs2.root_dir = fs.root_dir ∧
        fs2.umask = fs.umask ∧ fs2.curr_path = ensureSlash (absPathVal w fs path)) ∧
    (∀ (w : VfsWorld Node) (fs : FsStruct Node) (path : String) (node : Node)
        (t : List (VfsEvent Node)) (attr : VfsAttr),
      (ensureSlash (absPathVal w fs path) == "/") = false →
      lookup w fs none (ensureSlash (absPathVal w fs path)) 0 = some (.ok node, t) →
      w.getAttr node = .ok attr → attr.is_dir = true → attr.owner_executable = false →
      set_current_dir w fs path = some (fs, .error .PermissionDenied, t ++ [.getAttrE node])) ∧
    (∀ (w : VfsWorld Node) (fs : FsStruct Node) (path : String) (node : Node)
        (t : List (VfsEvent Node)) (attr : VfsAttr),
      (ensureSlash (absPathVal w fs path) == "/") = false →
      lookup w fs none (ensureSlash (absPathVal w fs path)) 0 = some (.ok node, t) →
      w.getAttr node = .ok attr → attr.is_dir = false →
      set_current_dir w fs path = some (fs, .error .NotADirectory, t ++ [.getAttrE node])) := by
  refine ⟨?_, ?_, ?_, ?_⟩
  · intro w fs path fs2 e t h
    rcases set_current_dir_shape w fs path with hs | ⟨e2, t2, hs⟩ | ⟨nd, t2, hs⟩ <;>
      rw [hs] at h
    · cases h
    · simp only [Option.some.injEq, Prod.mk.injEq] at h
      exact h.1.symm
    · simp at h
  · intro w fs path fs2 t h
    rcases set_current_dir_shape w fs path with hs | ⟨e2, t2, hs⟩ | ⟨nd, t2, hs⟩ <;>
      rw [hs] at h
    · cases h
    · simp at h
    · simp only [Option.some.injEq, Prod.mk.injEq] at h
      obtain ⟨h1, h2, h3⟩ := h
      subst h1
      exact ⟨rfl, rfl, rfl, rfl, rfl⟩
  · intro w fs path node t attr hslash hl hg hd hexec
    simp only [set_current_dir, absolute_path_eq, hslash, hl, hg, hd, hexec]
    simp
  · intro w fs path node t attr hslash hl hg hd
    simp only [set_current_dir, absolute_path_eq, hslash, hl, hg, hd]
    simp

/-- C5 witness: changing into a directory lacking the owner-executable bit
fails with `PermissionDenied` and leaves the concrete context unchanged. -/
theorem set_current_dir_error_preserves_state_witness :
    set_current_dir wDirNoExec fs0 "/d/" =
      some (fs0, .error .PermissionDenied,
        [VfsEvent.lookupE 0 "/d/" 0, VfsEvent.getAttrE 2] ++ [VfsEvent.getAttrE 2]) :=
  (@set_current_dir_error_preserves_state Nat).2.2.1 wDirNoExec fs0 "/d/" 2
    [VfsEvent.lookupE 0 "/d/" 0, VfsEvent.getAttrE 2] attrDirNoExec
    (by decide) (by decide) (by decide) (by decide) (by decide)

/-- C8: the invariant that `curr_path` is a normalized absolute path ending
in `/` holds after `new` and after `init`, is preserved by
`set_current_dir` whenever the canonicalizer meets its contract on the path
being set (its slash-terminated output is a normalized absolute directory
path), and is preserved by `copy_fs_struct` from a source context satisfying
the invariant. -/
theorem curr_path_norm_invariant {Node : Type} :
    NormAbsDir (@FsStruct.new Node).curr_path ∧
    (∀ (fs : FsStruct Node) (root : Node), NormAbsDir (init fs root).curr_path) ∧
    (∀ (w : VfsWorld Node) (fs : FsStruct Node) (path : String) (fs2 : FsStruct Node)
        (r : Except AxError Unit) (t : List (VfsEvent Node)),
      NormAbsDir fs.curr_path →
      NormAbsDir (ensureSlash (absPathVal w fs path)) →
      set_current_dir w fs path = some (fs2, r, t) →
      NormAbsDir fs2.curr_path) ∧
    (∀ (fs src : FsStruct Node), NormAbsDir src.curr_path →
      NormAbsDir (copy_fs_struct fs src).curr_path) := by
  refine ⟨(by decide : NormAbsDir "/"), fun fs root => (by decide : NormAbsDir "/"), ?_,
    fun fs src h => h⟩
  intro w fs path fs2 r t hfs hcanon h
  rcases set_current_dir_shape w fs path with hs | ⟨e2, t2, hs⟩ | ⟨nd, t2, hs⟩ <;>
    rw [hs] at h
  · cases h
  · simp only [Option.some.injEq, Prod.mk.injEq] at h
    rw [← h.1]
    exact hfs
  · simp only [Option.some.injEq, Prod.mk.injEq] at h
    rw [← h.1]
    exact hcanon

/-- C8 witness: concrete preservation instances for `set_current_dir` (with
the spec-modelled canonicalizer) and `copy_fs_struct`. -/
theorem curr_path_norm_invariant_witness :
    NormAbsDir ({ fs0 with curr_dir := some 2, curr_path := "/d/" } : FsStruct Nat).curr_path ∧
    NormAbsDir (copy_fs_struct fs0 fs0).curr_path :=
  ⟨(@curr_path_norm_invariant Nat).2.2.1 wDir fs0 "/d/"
      { fs0 with curr_dir := some 2, curr_path := "/d/" } (.ok ())
      [VfsEvent.lookupE 0 "/d/" 0, VfsEvent.getAttrE 2, VfsEvent.getAttrE 2]
      (by decide) (by decide) (by decide),
   (@curr_path_norm_invariant Nat).2.2.2 fs0 fs0 (by decide)⟩

/-- Helper: running `set_current_dir` on a context with a replaced `umask`
gives the same outcome, with the `umask` carried through unchanged. -/
theorem set_current_dir_umask {Node : Type} (w : VfsWorld Node) (fs : FsStruct Node)
    (u : Nat) (path : String) :
    set_current_dir w { fs with umask := u } path =
      Option.map (fun x => ({ x.1 with umask := u }, x.2)) (set_current_dir w fs path) := by
  have e1 : absPathVal w { fs with umask := u } path = absPathVal w fs path := rfl
  have e2 : ∀ p : String, lookup w { fs with umask := u } none p 0 = lookup w fs none p 0 :=
    fun p => rfl
  have e3 : ({ fs with umask := u } : FsStruct Node).root_dir = fs.root_dir := rfl
  simp only [set_current_dir, absolute_path_eq, e1, e2, e3]
  split
  · cases fs.root_dir <;> rfl
  · split
    · rfl
    · rfl
    · split
      · rfl
      · split
        · rfl
        · split
          · rfl
          · rfl

/-- C10: the stored `umask` is never read: two contexts differing only in
`umask` give, for every public operation other than `set_umask`, identical
results and traces, and post-states that agree on every field other than
`umask`. -/
theorem umask_never_read {Node : Type} (w : VfsWorld Node) (fs : FsStruct Node)
    (u1 u2 : Nat) (op : FsOp Node) (h : op.isSetUmask = false) :
    (applyOp w { fs with umask := u1 } op).2 = (applyOp w { fs with umask := u2 } op).2 ∧
    (applyOp w { fs with umask := u1 } op).1.users =
      (applyOp w { fs with umask := u2 } op).1.users ∧
    (applyOp w { fs with umask := u1 } op).1.in_exec =
      (applyOp w { fs with umask := u2 } op).1.in_exec ∧
    (applyOp w { fs with umask := u1 } op).1.curr_path =
      (applyOp w { fs with umask := u2 } op).1.curr_path ∧
    (applyOp w { fs with umask := u1 } op).1.curr_dir =
      (applyOp w { fs with umask := u2 } op).1.curr_dir ∧
    (applyOp w { fs with umask := u1 } op).1.root_dir =
      (applyOp w { fs with umask := u2 } op).1.root_dir := by
  cases op
  case setUmaskOp m => simp [FsOp.isSetUmask] at h
  case setCurrentDirOp path =>
    simp only [applyOp, set_current_dir_umask]
    cases hs : set_current_dir w fs path with
    | none => simp
    | some res =>
      obtain ⟨fs3, r, t⟩ := res
      simp
  all_goals exact ⟨rfl, rfl, rfl, rfl, rfl, rfl⟩

/-- C10 witness: a concrete lookup is insensitive to the stored umask. -/
theorem umask_never_read_witness :
    (applyOp wNF { fs0 with umask := 1 } (FsOp.lookupOp none "a" 0)).2 =
      (applyOp wNF { fs0 with umask := 2 } (FsOp.lookupOp none "a" 0)).2 :=
  (umask_never_read wNF fs0 1 2 (FsOp.lookupOp none "a" 0) (by decide)).1

/-- C1: when the destination of a `rename` already resolves, the destination
is first removed via `remove_file` and the rename is then delegated to the
parent node of `old`: if the destination is a regular (non-directory) file
the removal and the rename both happen, in that order, and the whole
operation succeeds; if the destination is a directory the operation fails
with `IsADirectory` raised inside `remove_file`, and neither a removal nor a
rename is ever delegated to the node interface. -/
theorem rename_overwrite_behavior {Node : Type} :
    (∀ (w : VfsWorld Node) (fs : FsStruct Node) (old nw : String) (pn po n : Node)
        (lk : Node × String) (rest : String) (attr : VfsAttr),
      parent_node_of fs none nw = some pn →
      parent_node_of fs none old = some po →
      w.lookupN pn nw 0 = .ok lk →
      strIsEmpty nw = false →
      strEndsWith nw "/" = false →
      w.lookupN pn nw O_NOFOLLOW = .ok (n, rest) →
      w.getAttr n = .ok attr → attr.is_dir = false →
      w.removeN pn nw = .ok () → w.renameN po old nw = .ok () →
      rename w fs old nw =
        some (.ok (), [.lookupE pn nw 0, .lookupE pn nw O_NOFOLLOW, .getAttrE n,
          .removeE pn nw, .renameE po old nw])) ∧
    (∀ (w : VfsWorld Node) (fs : FsStruct Node) (old nw : String) (pn n : Node)
        (lk : Node × String) (rest : String) (attr : VfsAttr),
      parent_node_of fs none nw = some pn →
      w.lookupN pn nw 0 = .ok lk →
      strIsEmpty nw = false →
      w.lookupN pn nw O_NOFOLLOW = .ok (n, rest) →
      w.getAttr n = .ok attr → attr.is_dir = true →
      ∃ t, rename w fs old nw = some (.error .IsADirectory, t) ∧
        (∀ m o2 n2, VfsEvent.renameE m o2 n2 ∉ t) ∧
        ∀ m q, VfsEvent.removeE m q ∉ t) := by
  constructor
  · intro w fs old nw pn po n lk rest attr hpn hpo hlk0 hne hsl hnf hattr hd hrm hrn
    simp only [rename, remove_file, lookup, hpn, hpo, hlk0, hne, hsl, hnf, hattr, hd, hrm, hrn]
    simp [hattr, hd]
  · intro w fs old nw pn n lk rest attr hpn hlk0 hne hnf hattr hd
    cases hsl : strEndsWith nw "/"
    · refine ⟨[.lookupE pn nw 0, .lookupE pn nw O_NOFOLLOW, .getAttrE n], ?_, ?_, ?_⟩
      · simp only [rename, remove_file, lookup, hpn, hlk0, hne, hsl, hnf, hattr, hd]
        simp [hattr, hd]
      · intro m o2 n2
        simp
      · intro m q
        simp
    · refine ⟨[.lookupE pn nw 0, .lookupE pn nw O_NOFOLLOW, .getAttrE n, .getAttrE n],
        ?_, ?_, ?_⟩
      · simp only [rename, remove_file, lookup, hpn, hlk0, hne, hsl, hnf, hattr, hd]
        simp [hattr, hd]
      · intro m o2 n2
        simp
      · intro m q
        simp

/-- C1 witness: renaming onto an existing regular file removes it and then
performs the rename, successfully. -/
theorem rename_overwrite_behavior_witness :
    rename wFile fs0 "g" "f" =
      some (.ok (), [.lookupE 0 "f" 0, .lookupE 0 "f" O_NOFOLLOW, .getAttrE 1,
        .removeE 0 "f", .renameE 0 "g" "f"]) :=
  (@rename_overwrite_behavior Nat).1 wFile fs0 "g" "f" 0 0 1 (1, "") "" attrFile
    (by decide) (by decide) (by decide) (by decide) (by decide) (by decide) (by decide)
    (by decide) (by decide) (by decide)
